import Mathlib

/-!
Verification development for a Discord meeting-recorder bot (src/main.py).

The bot keeps a per-guild map `connections` of active recording sessions, a
JSON config file mirrored by module-level globals (`allowed_voice_channels`,
`SUMMARY_CHANNEL_ID`, `TRANSCRIPT_CHANNEL_ID` and the dict `config`), a set of
prefix commands (`record`, `set_auto_record_channels`, `set_summary_channel`,
`set_transcript_channel`, ...), a voice-state event handler
(`on_voice_state_update`) implementing auto start/stop, and a completion
callback (`once_done`) that transcribes per-speaker audio, summarizes, and
posts two messages.

External collaborators (the Discord gateway, the Whisper transcription call,
the ChatCompletion summarization call, wall-clock time, channel resolution)
are modelled as oracle parameters; the side effects issued by the code
(connect, start/stop recording, message sends, config-file writes) are
recorded as explicit action traces.
-/

/-- A guild member as observed by the handler: an id plus the `bot` flag. -/
structure Member where
  id : Nat
  bot : Bool
deriving DecidableEq

/-- A voice channel as observed by the handler: its id and current members. -/
structure VoiceChannel where
  id : Int
  members : List Member
deriving DecidableEq

/-- One entry of the `connections` dict:
`{"vc": vc, "summary_channel": summary_channel}`.  The voice connection is an
abstract handle; the stored destination channel may be `none` because
`guild.get_channel(SUMMARY_CHANNEL_ID)` can return `None`. -/
structure Session where
  vc : Nat
  summary_channel : Option Nat
deriving DecidableEq

/-- The JSON config document (`config.json` / the in-memory `config` dict):
keys `allowed_voice_channels`, `SUMMARY_CHANNEL_ID`, `TRANSCRIPT_CHANNEL_ID`. -/
structure Config where
  allowed_voice_channels : List Int
  SUMMARY_CHANNEL_ID : Int
  TRANSCRIPT_CHANNEL_ID : Int
deriving DecidableEq

/-- The bot's mutable module-level state: the `connections` dict (modelled as
an association list keyed by guild id), the three globals caching config
fields, the `config` dict itself, and the decoded contents of `config.json`. -/
structure BotState where
  connections : List (Nat × Session)
  allowed_voice_channels : List Int
  SUMMARY_CHANNEL_ID : Int
  TRANSCRIPT_CHANNEL_ID : Int
  config : Config
  file : Config
deriving DecidableEq

/-- Python dict deletion `del connections[g]` on the association list. -/
def dictErase (cs : List (Nat × Session)) (g : Nat) : List (Nat × Session) :=
  cs.filter (fun p => p.1 != g)

/-- Python dict assignment `connections[g] = s` on the association list. -/
def dictInsert (cs : List (Nat × Session)) (g : Nat) (s : Session) :
    List (Nat × Session) :=
  (g, s) :: dictErase cs g

/-- The per-guild uniqueness invariant of the registry representation. -/
def NodupKeys (cs : List (Nat × Session)) : Prop :=
  (cs.map Prod.fst).Nodup

/-- Voice-side effects issued by the commands and the event handler. -/
inductive VoiceAct where
  | startRecording (vc : Nat) (dest : Option Nat)
  | stopRecording (vc : Nat)
deriving DecidableEq

/-- Effects issued by the config setter commands: a full rewrite of
`config.json` with the given document, or a reply sent back to the invoker. -/
inductive CmdAct where
  | writeConfigFile (cfg : Config)
  | reply (msg : String)
deriving DecidableEq

/-- The `record` command (src/main.py lines 79-101).  `connect` is the outcome
of `voice.channel.connect()` (an external call that may raise);
`author_voice` is `ctx.author.voice` (the invoker's current voice channel, if
any); `ctx_channel` is the id of the text channel the command was typed in.
Note the code performs no already-recording check: on a successful connect it
assigns `connections[ctx.guild.id]` unconditionally. -/
def record (connect : Except String Nat) (author_voice : Option VoiceChannel)
    (ctx_channel : Nat) (guildId : Nat) (st : BotState) :
    BotState × List VoiceAct × String :=
  match author_voice with
  | none => (st, [], "⚠️ You aren\x27t in a voice channel!")
  | some _ch =>
    match connect with
    | .error _e => (st, [], "⚠️ Failed to connect to the voice channel.")
    | .ok vc =>
      ({st with connections :=
          dictInsert st.connections guildId ⟨vc, some ctx_channel⟩},
       [VoiceAct.startRecording vc (some ctx_channel)],
       "🔴 Listening to this conversation.")

/-- The `set_auto_record_channels` command (src/main.py lines 116-129).
`pyInt` models the Python `int(...)` parse (`none` = raises `ValueError`);
the list comprehension `[int(cid) for cid in channel_ids]` is evaluated in
full before the global is assigned, so any failure leaves state untouched. -/
def set_auto_record_channels (pyInt : String → Option Int)
    (channel_ids : List String) (st : BotState) : BotState × List CmdAct :=
  match channel_ids.mapM pyInt with
  | none => (st, [CmdAct.reply ("Invalid channel ID provided in one or more inputs!")])
  | some ids =>
    let cfg := {st.config with allowed_voice_channels := ids}
    ({st with allowed_voice_channels := ids, config := cfg, file := cfg},
     [CmdAct.writeConfigFile cfg,
      CmdAct.reply ("Auto record channels updated to: " ++
        String.intercalate (", ") (ids.map toString))])

/-- The `set_summary_channel` command (src/main.py lines 131-144). -/
def set_summary_channel (pyInt : String → Option Int) (channel_id : String)
    (st : BotState) : BotState × List CmdAct :=
  match pyInt channel_id with
  | none => (st, [CmdAct.reply ("Invalid channel ID provided!")])
  | some cid =>
    let cfg := {st.config with SUMMARY_CHANNEL_ID := cid}
    ({st with SUMMARY_CHANNEL_ID := cid, config := cfg, file := cfg},
     [CmdAct.writeConfigFile cfg,
      CmdAct.reply ("Summary channel set to: " ++ toString cid)])

/-- The `set_transcript_channel` command (src/main.py lines 146-159). -/
def set_transcript_channel (pyInt : String → Option Int) (channel_id : String)
    (st : BotState) : BotState × List CmdAct :=
  match pyInt channel_id with
  | none => (st, [CmdAct.reply ("Invalid channel ID provided!")])
  | some cid =>
    let cfg := {st.config with TRANSCRIPT_CHANNEL_ID := cid}
    ({st with TRANSCRIPT_CHANNEL_ID := cid, config := cfg, file := cfg},
     [CmdAct.writeConfigFile cfg,
      CmdAct.reply ("Transcript channel set to: " ++ toString cid)])

/-- The globals are caches of the `config` dict fields; this holds after the
initial load and is preserved by every setter. -/
def configInSync (st : BotState) : Prop :=
  st.allowed_voice_channels = st.config.allowed_voice_channels ∧
  st.SUMMARY_CHANNEL_ID = st.config.SUMMARY_CHANNEL_ID ∧
  st.TRANSCRIPT_CHANNEL_ID = st.config.TRANSCRIPT_CHANNEL_ID

/-- The body of the `try:` block of `on_voice_state_update`
(src/main.py lines 199-224), with the external calls as oracles:
`connect` is `after.channel.connect()`, `stop_rec` is `vc.stop_recording()`,
`guild_get_channel` is `guild.get_channel`.  `guildId` and `me` come from
`member.guild`.  An `.error` is an exception propagating out of the block. -/
def on_voice_state_update_try (connect : Except String Nat)
    (stop_rec : Nat → Except String Unit)
    (guildId : Nat) (me : Member) (guild_get_channel : Int → Option Nat)
    (before after : Option VoiceChannel) (st : BotState) :
    Except String (BotState × List VoiceAct) :=
  match before with
  | none =>
    match after with
    | none => .ok (st, [])
    | some ch =>
      if ch.id ∈ st.allowed_voice_channels then
        if st.connections.lookup guildId = none ∧
            ch.members.any (fun m => !m.bot) = true then
          match connect with
          | .error e => .error e
          | .ok vc =>
            let summary_channel := guild_get_channel st.SUMMARY_CHANNEL_ID
            .ok ({st with connections :=
                    dictInsert st.connections guildId ⟨vc, summary_channel⟩},
                 [VoiceAct.startRecording vc summary_channel])
        else .ok (st, [])
      else .ok (st, [])
  | some bch =>
    if bch.id ∈ st.allowed_voice_channels then
      if bch.members = [me] then
        match st.connections.lookup guildId with
        | none => .ok (st, [])
        | some s =>
          match stop_rec s.vc with
          | .error e => .error e
          | .ok _ =>
            .ok ({st with connections := dictErase st.connections guildId},
                 [VoiceAct.stopRecording s.vc])
      else .ok (st, [])
    else .ok (st, [])

/-- The full `on_voice_state_update` handler (src/main.py lines 196-226): the
`try:` body wrapped in the catch-all `except` that logs the exception (third
component) and returns normally.  No state mutation precedes any raising call
in the body, so on an exception the module state is the pre-event state. -/
def on_voice_state_update (connect : Except String Nat)
    (stop_rec : Nat → Except String Unit)
    (guildId : Nat) (me : Member) (guild_get_channel : Int → Option Nat)
    (before after : Option VoiceChannel) (st : BotState) :
    BotState × List VoiceAct × Option String :=
  match on_voice_state_update_try connect stop_rec guildId me guild_get_channel
      before after st with
  | .ok (st2, acts) => (st2, acts, none)
  | .error e => (st, [], some e)

/-- An abstract handle to one speaker's captured audio buffer
(`sink.audio_data[user_id]`); its contents only matter through the
transcription oracle. -/
abbrev Audio := Nat

/-- External calls performed by `once_done`, in program order: the voice
disconnect, one Whisper transcription per speaker, the single ChatCompletion
summarization (with the exact transcript passed to it), and `*.send` posts. -/
inductive Call where
  | disconnect
  | transcribeCall (user : Nat)
  | summarizeCall (input : String)
  | send (channel : Nat) (content : String)
deriving DecidableEq

/-- Observable outcome of one `once_done` run: the external calls made,
whether the catch-all `except` fired (the run logged as failed), and whether
"Transcript channel not found!" was logged. -/
structure RunResult where
  calls : List Call
  failed : Bool
  transcript_channel_missing_logged : Bool
deriving DecidableEq

/-- The per-speaker transcription loop of `once_done` (src/main.py lines
236-259): each speaker's buffer is transcribed independently; any exception
in the per-speaker `try` is replaced by the sentinel text and the loop
continues. -/
def transcribeAll (transcribe : Nat → Audio → Except String String)
    (audio_data : List (Nat × Audio)) : List (Nat × String) :=
  audio_data.map (fun p =>
    (p.1, match transcribe p.1 p.2 with
          | .ok t => t
          | .error _ => "[Error transcribing audio]"))

/-- Assembly of `final_transcript` (src/main.py lines 262-265): concatenate
speaker-labeled lines in iteration order, then `strip()`. -/
def assembleTranscript (transcripts : List (Nat × String)) : String :=
  (transcripts.foldl
    (fun acc p => acc ++ "\n\nSpeaker <@" ++ toString p.1 ++ ">: " ++ p.2)
    "").trim

/-- The participant mention list `recorded_users` (src/main.py line 233). -/
def recordedUsers (audio_data : List (Nat × Audio)) : List String :=
  audio_data.map (fun p => "<@" ++ toString p.1 ++ ">")

/-- The summary message format (src/main.py lines 283-287). -/
def summaryMessage (meeting_time : String) (users : List String)
    (summary : String) : String :=
  "**Meeting Date & Time:** " ++ meeting_time ++ "\n" ++
  "**Participants:** " ++ String.intercalate (", ") users ++ "\n" ++
  "**Summary:**\n" ++ summary ++ "\n\n"

/-- The transcript message format (src/main.py lines 295-298). -/
def transcriptMessage (meeting_time : String) (users : List String)
    (final_transcript : String) : String :=
  "**Meeting Date & Time:** " ++ meeting_time ++ "\n" ++
  "**Participants:** " ++ String.intercalate (", ") users ++ "\n" ++
  "**Transcript:**\n" ++ final_transcript

/-- The `once_done` completion callback (src/main.py lines 231-304).
Oracles: `transcribe` is the Whisper call for one speaker's buffer
(`.error` = any exception in the per-speaker `try`), `summarize` is the
ChatCompletion call (`.error` = it raises), `get_channel` is
`bot.get_channel`, `meeting_time` is `pendulum.now().format(...)`.
`channel` is the destination passed at `start_recording` time (the session's
stored summary channel, which may be `None`); `channel.send(...)` on `None`
raises, landing in the catch-all `except` which logs and returns. -/
def once_done (transcribe : Nat → Audio → Except String String)
    (summarize : String → Except String String)
    (get_channel : Int → Option Nat) (TRANSCRIPT_CHANNEL_ID : Int)
    (meeting_time : String) (audio_data : List (Nat × Audio))
    (channel : Option Nat) : RunResult :=
  let users := recordedUsers audio_data
  let transcripts := transcribeAll transcribe audio_data
  let final_transcript := assembleTranscript transcripts
  let baseCalls := Call.disconnect ::
    audio_data.map (fun p => Call.transcribeCall p.1) ++
    [Call.summarizeCall final_transcript]
  match summarize final_transcript with
  | .error _e =>
    { calls := baseCalls, failed := true,
      transcript_channel_missing_logged := false }
  | .ok summary =>
    match channel with
    | none =>
      { calls := baseCalls, failed := true,
        transcript_channel_missing_logged := false }
    | some c =>
      let withSummary := baseCalls ++
        [Call.send c (summaryMessage meeting_time users summary)]
      match get_channel TRANSCRIPT_CHANNEL_ID with
      | some tc =>
        { calls := withSummary ++
            [Call.send tc (transcriptMessage meeting_time users final_transcript)],
          failed := false, transcript_channel_missing_logged := false }
      | none =>
        { calls := withSummary, failed := false,
          transcript_channel_missing_logged := true }

/-- Concrete fixtures for instantiating the theorems below. -/
def meBot : Member := ⟨99, true⟩

def chHuman : VoiceChannel := ⟨5, [⟨2, false⟩]⟩

def chBotsOnly : VoiceChannel := ⟨5, [meBot]⟩

def cfg0 : Config := ⟨[5], 77, 88⟩

def stIdle : BotState := ⟨[], [5], 77, 88, cfg0, cfg0⟩

def stBusy : BotState := ⟨[(1, ⟨7, some 50⟩)], [5], 77, 88, cfg0, cfg0⟩

/-- Fixture oracles for instantiating the theorems below. -/
def transcribeOk : Nat → Audio → Except String String := fun _ _ => .ok ("hi")

def summarizeFail : String → Except String String := fun _ => .error ("boom")

def summarizeOk : String → Except String String := fun _ => .ok ("the summary")

def noChannel : Int → Option Nat := fun _ => none

def someChannel : Int → Option Nat := fun _ => some 88

def stopOk : Nat → Except String Unit := fun _ => .ok ()

def pyIntFix : String → Option Int := fun s =>
  if s = "12" then some 12 else if s = "42" then some 42 else none

theorem lookup_dictErase (cs : List (Nat × Session)) (g : Nat) :
    (dictErase cs g).lookup g = none := by
  induction cs with
  | nil => rfl
  | cons p t ih =>
    unfold dictErase at ih ⊢
    rw [List.filter_cons]
    by_cases h : p.1 = g
    · have hb : (p.1 != g) = false := by simp [h]
      rw [hb]
      exact ih
    · have hb : (p.1 != g) = true := by simp [h]
      rw [hb]
      have hk : (g == p.1) = false := by
        simp [Ne.symm h]
      simp only [List.lookup, hk]
      exact ih

theorem lookup_dictErase_ne (cs : List (Nat × Session)) (g g' : Nat)
    (h : g' ≠ g) : (dictErase cs g).lookup g' = cs.lookup g' := by
  induction cs with
  | nil => rfl
  | cons p t ih =>
    unfold dictErase at ih ⊢
    rw [List.filter_cons]
    by_cases hp : p.1 = g
    · have hb : (p.1 != g) = false := by simp [hp]
      have hg : (g' == p.1) = false := by
        simp [hp]
        exact h
      rw [hb]
      simp only [List.lookup, hg]
      exact ih
    · have hb : (p.1 != g) = true := by simp [hp]
      rw [hb]
      cases hgp : (g' == p.1) with
      | true => simp only [List.lookup, hgp]
      | false =>
        simp only [List.lookup, hgp]
        exact ih

theorem lookup_dictInsert (cs : List (Nat × Session)) (g : Nat) (s : Session) :
    (dictInsert cs g s).lookup g = some s := by
  simp [dictInsert, List.lookup]

theorem not_mem_keys_dictErase (cs : List (Nat × Session)) (g : Nat) :
    g ∉ (dictErase cs g).map Prod.fst := by
  intro hmem
  rcases List.mem_map.mp hmem with ⟨p, hp, hfst⟩
  rcases List.mem_filter.mp hp with ⟨_, hne⟩
  rw [hfst] at hne
  simp at hne

theorem nodupKeys_dictErase (cs : List (Nat × Session)) (g : Nat)
    (h : NodupKeys cs) : NodupKeys (dictErase cs g) := by
  have hsub : List.Sublist ((dictErase cs g).map Prod.fst) (cs.map Prod.fst) :=
    List.Sublist.map Prod.fst (List.filter_sublist cs)
  exact List.Nodup.sublist hsub h

theorem nodupKeys_dictInsert (cs : List (Nat × Session)) (g : Nat) (s : Session)
    (h : NodupKeys cs) : NodupKeys (dictInsert cs g s) := by
  unfold NodupKeys dictInsert
  rw [List.map_cons]
  exact List.nodup_cons.mpr ⟨not_mem_keys_dictErase cs g, nodupKeys_dictErase cs g h⟩

/-- C2: if the single summarization call in the completion pipeline fails,
the run is logged as failed and no message at all is posted — neither the
summary nor the transcript. -/
theorem C2_summarize_failure_aborts_posts
    (transcribe : Nat → Audio → Except String String)
    (summarize : String → Except String String)
    (get_channel : Int → Option Nat) (tid : Int) (mt : String)
    (audio_data : List (Nat × Audio)) (channel : Option Nat) (e : String)
    (hs : summarize (assembleTranscript (transcribeAll transcribe audio_data)) =
      .error e) :
    (once_done transcribe summarize get_channel tid mt audio_data channel).failed
      = true ∧
    ∀ c m, Call.send c m ∉
      (once_done transcribe summarize get_channel tid mt audio_data channel).calls := by
  simp only [once_done]
  rw [hs]
  refine ⟨rfl, ?_⟩
  intro c m
  simp

/-- C3: each speaker's buffer is transcribed independently — a failing
speaker's entry is exactly the sentinel text, every other speaker's entry is
its real transcription — and the pipeline always reaches the summarization
call with the transcript assembled from those entries. -/
theorem C3_per_speaker_transcription_isolated
    (transcribe : Nat → Audio → Except String String)
    (summarize : String → Except String String)
    (get_channel : Int → Option Nat) (tid : Int) (mt : String)
    (audio_data : List (Nat × Audio)) (channel : Option Nat) :
    List.Forall₂ (fun (p : Nat × Audio) (q : Nat × String) =>
        q.1 = p.1 ∧
        ((∃ t, transcribe p.1 p.2 = .ok t ∧ q.2 = t) ∨
         (∃ e, transcribe p.1 p.2 = .error e ∧
            q.2 = "[Error transcribing audio]")))
      audio_data (transcribeAll transcribe audio_data) ∧
    Call.summarizeCall (assembleTranscript (transcribeAll transcribe audio_data)) ∈
      (once_done transcribe summarize get_channel tid mt audio_data channel).calls := by
  constructor
  · induction audio_data with
    | nil => exact List.Forall₂.nil
    | cons p t ih =>
      refine List.Forall₂.cons ⟨rfl, ?_⟩ ih
      cases h : transcribe p.1 p.2 with
      | ok tt => exact Or.inl ⟨tt, rfl, by simp [h]⟩
      | error e => exact Or.inr ⟨e, rfl, by simp [h]⟩
  · simp only [once_done]
    cases hs : summarize (assembleTranscript (transcribeAll transcribe audio_data)) with
    | error e => simp
    | ok s =>
      cases channel with
      | none => simp
      | some c =>
        cases hg : get_channel tid with
        | some tc => simp
        | none => simp

/-- C6: when summarization succeeded but the transcript channel cannot be
resolved at post time, the summary is still posted to the destination, the
transcript post is the only thing skipped (with an error logged), and the run
does not fail. -/
theorem C6_unresolved_transcript_channel_degrades
    (transcribe : Nat → Audio → Except String String)
    (summarize : String → Except String String)
    (get_channel : Int → Option Nat) (tid : Int) (mt : String)
    (audio_data : List (Nat × Audio)) (c : Nat) (s : String)
    (hs : summarize (assembleTranscript (transcribeAll transcribe audio_data)) =
      .ok s)
    (ht : get_channel tid = none) :
    (once_done transcribe summarize get_channel tid mt audio_data (some c)).failed
      = false ∧
    (once_done transcribe summarize get_channel tid mt audio_data
      (some c)).transcript_channel_missing_logged = true ∧
    Call.send c (summaryMessage mt (recordedUsers audio_data) s) ∈
      (once_done transcribe summarize get_channel tid mt audio_data (some c)).calls ∧
    ∀ d m, Call.send d m ∈
        (once_done transcribe summarize get_channel tid mt audio_data (some c)).calls →
      d = c ∧ m = summaryMessage mt (recordedUsers audio_data) s := by
  simp only [once_done]
  rw [hs, ht]
  refine ⟨rfl, rfl, by simp, ?_⟩
  intro d m hmem
  simp at hmem
  exact ⟨hmem.1, hmem.2⟩

/-- C4: a join transition (no previous channel, new channel present) connects
and registers a session with destination `guild.get_channel(SUMMARY_CHANNEL_ID)`
exactly when the joined channel is allowed, no session is active for the
guild, and some non-bot member is in the channel post-join; otherwise the
event leaves the state untouched and starts nothing.  (In particular a join
into an allowed channel whose members are all bots starts no session.) -/
theorem C4_join_auto_start_iff
    (vc : Nat) (stop_rec : Nat → Except String Unit) (guildId : Nat)
    (me : Member) (ggc : Int → Option Nat) (ch : VoiceChannel) (st : BotState) :
    ((ch.id ∈ st.allowed_voice_channels ∧ st.connections.lookup guildId = none ∧
        ch.members.any (fun m => !m.bot) = true) →
      on_voice_state_update (.ok vc) stop_rec guildId me ggc none (some ch) st =
        ({st with connections :=
            dictInsert st.connections guildId ⟨vc, ggc st.SUMMARY_CHANNEL_ID⟩},
         [VoiceAct.startRecording vc (ggc st.SUMMARY_CHANNEL_ID)], none)) ∧
    (¬(ch.id ∈ st.allowed_voice_channels ∧ st.connections.lookup guildId = none ∧
        ch.members.any (fun m => !m.bot) = true) →
      on_voice_state_update (.ok vc) stop_rec guildId me ggc none (some ch) st =
        (st, [], none)) := by
  constructor
  · rintro ⟨h1, h2, h3⟩
    simp [on_voice_state_update, on_voice_state_update_try, h1, h2, h3]
  · intro hn
    by_cases h1 : ch.id ∈ st.allowed_voice_channels
    · by_cases h23 : st.connections.lookup guildId = none ∧
          ch.members.any (fun m => !m.bot) = true
      · exact absurd ⟨h1, h23.1, h23.2⟩ hn
      · simp only [on_voice_state_update, on_voice_state_update_try]
        rw [if_pos h1, if_neg h23]
    · simp [on_voice_state_update, on_voice_state_update_try, h1]

/-- C5: a leave event that leaves an allowed channel holding exactly the bot
while a session is active stops the recording exactly once and removes the
guild from the registry; replaying the same event against the resulting state
finds no session and performs no second stop. -/
theorem C5_auto_stop_exactly_once
    (connect : Except String Nat) (stop_rec : Nat → Except String Unit)
    (guildId : Nat) (me : Member) (ggc : Int → Option Nat)
    (bch : VoiceChannel) (after : Option VoiceChannel) (st : BotState)
    (s : Session)
    (h1 : bch.id ∈ st.allowed_voice_channels)
    (h2 : bch.members = [me])
    (h3 : st.connections.lookup guildId = some s)
    (h4 : stop_rec s.vc = .ok ()) :
    on_voice_state_update connect stop_rec guildId me ggc (some bch) after st =
      ({st with connections := dictErase st.connections guildId},
       [VoiceAct.stopRecording s.vc], none) ∧
    ({st with connections := dictErase st.connections guildId} :
        BotState).connections.lookup guildId = none ∧
    on_voice_state_update connect stop_rec guildId me ggc (some bch) after
        {st with connections := dictErase st.connections guildId} =
      ({st with connections := dictErase st.connections guildId}, [], none) := by
  refine ⟨?_, ?_, ?_⟩
  · simp [on_voice_state_update, on_voice_state_update_try, h1, h2, h3, h4]
  · simpa using lookup_dictErase st.connections guildId
  · simp [on_voice_state_update, on_voice_state_update_try, h1, h2,
      lookup_dictErase]

/-- C8: the voice-state handler is a catch-all around its body — whenever the
body raises (connect, channel lookup, registry access or stop), the handler
still returns normally with the pre-event state and the exception logged, and
whenever the body completes, the handler returns its result with nothing
logged.  No voice-state event can propagate an exception out of the handler. -/
theorem C8_handler_catches_all_exceptions
    (connect : Except String Nat) (stop_rec : Nat → Except String Unit)
    (guildId : Nat) (me : Member) (ggc : Int → Option Nat)
    (before after : Option VoiceChannel) (st : BotState) :
    (∃ e, on_voice_state_update_try connect stop_rec guildId me ggc before after st
        = .error e ∧
      on_voice_state_update connect stop_rec guildId me ggc before after st
        = (st, [], some e)) ∨
    (∃ p, on_voice_state_update_try connect stop_rec guildId me ggc before after st
        = .ok p ∧
      on_voice_state_update connect stop_rec guildId me ggc before after st
        = (p.1, p.2, none)) := by
  cases h : on_voice_state_update_try connect stop_rec guildId me ggc before after st with
  | error e =>
    exact Or.inl ⟨e, rfl, by simp [on_voice_state_update, h]⟩
  | ok p =>
    exact Or.inr ⟨p, rfl, by simp [on_voice_state_update, h]⟩

/-- C7: `set_auto_record_channels` is all-or-nothing — if any token fails the
`int(...)` parse the whole call is rejected with the invalid-id reply and
neither the in-memory list, the `config` dict, nor the config file changes;
if every token parses, the stored list is replaced by the parsed ids and the
full config document is persisted. -/
theorem C7_set_auto_channels_all_or_nothing
    (pyInt : String → Option Int) (channel_ids : List String) (st : BotState) :
    (channel_ids.mapM pyInt = none →
      set_auto_record_channels pyInt channel_ids st =
        (st, [CmdAct.reply ("Invalid channel ID provided in one or more inputs!")])) ∧
    (∀ ids, channel_ids.mapM pyInt = some ids →
      set_auto_record_channels pyInt channel_ids st =
        ({st with
            allowed_voice_channels := ids,
            config := {st.config with allowed_voice_channels := ids},
            file := {st.config with allowed_voice_channels := ids}},
         [CmdAct.writeConfigFile {st.config with allowed_voice_channels := ids},
          CmdAct.reply ("Auto record channels updated to: " ++
            String.intercalate (", ") (ids.map toString))])) := by
  constructor
  · intro h
    unfold set_auto_record_channels
    rw [h]
  · intro ids h
    unfold set_auto_record_channels
    rw [h]

/-- C9: every setter that accepts its input writes the full updated config
document to the file before replying, so after a successful call the file
contents equal the in-memory `config` dict, and the global caches stay in
sync with the dict. -/
theorem C9_setters_write_through
    (pyInt : String → Option Int) (tok : String) (toks : List String)
    (st : BotState) :
    (∀ cid, pyInt tok = some cid →
      (set_summary_channel pyInt tok st).1.file =
        (set_summary_channel pyInt tok st).1.config ∧
      (set_summary_channel pyInt tok st).2 =
        [CmdAct.writeConfigFile (set_summary_channel pyInt tok st).1.config,
         CmdAct.reply ("Summary channel set to: " ++ toString cid)] ∧
      (configInSync st → configInSync (set_summary_channel pyInt tok st).1)) ∧
    (∀ cid, pyInt tok = some cid →
      (set_transcript_channel pyInt tok st).1.file =
        (set_transcript_channel pyInt tok st).1.config ∧
      (set_transcript_channel pyInt tok st).2 =
        [CmdAct.writeConfigFile (set_transcript_channel pyInt tok st).1.config,
         CmdAct.reply ("Transcript channel set to: " ++ toString cid)] ∧
      (configInSync st → configInSync (set_transcript_channel pyInt tok st).1)) ∧
    (∀ ids, toks.mapM pyInt = some ids →
      (set_auto_record_channels pyInt toks st).1.file =
        (set_auto_record_channels pyInt toks st).1.config ∧
      (set_auto_record_channels pyInt toks st).2 =
        [CmdAct.writeConfigFile (set_auto_record_channels pyInt toks st).1.config,
         CmdAct.reply ("Auto record channels updated to: " ++
           String.intercalate (", ") (ids.map toString))] ∧
      (configInSync st → configInSync (set_auto_record_channels pyInt toks st).1)) := by
  refine ⟨?_, ?_, ?_⟩
  · intro cid h
    unfold set_summary_channel
    rw [h]
    refine ⟨rfl, rfl, ?_⟩
    rintro ⟨ha, hs2, ht2⟩
    exact ⟨ha, rfl, ht2⟩
  · intro cid h
    unfold set_transcript_channel
    rw [h]
    refine ⟨rfl, rfl, ?_⟩
    rintro ⟨ha, hs2, ht2⟩
    exact ⟨ha, hs2, rfl⟩
  · intro ids h
    unfold set_auto_record_channels
    rw [h]
    refine ⟨rfl, rfl, ?_⟩
    rintro ⟨ha, hs2, ht2⟩
    exact ⟨rfl, hs2, ht2⟩

/-- C10: when the auto-start conditions hold but the configured summary
channel id resolves to no channel, the session is still registered — with
destination `none` and recording started — and the failure only surfaces in
the completion pipeline, where the summary post to the absent destination
raises and is swallowed by the catch-all (the run is logged as failed and
nothing is posted), even though summarization succeeded. -/
theorem C10_unresolved_destination_not_validated_at_start
    (vc : Nat) (stop_rec : Nat → Except String Unit) (guildId : Nat)
    (me : Member) (ggc : Int → Option Nat) (ch : VoiceChannel) (st : BotState)
    (transcribe : Nat → Audio → Except String String)
    (summarize : String → Except String String)
    (get_channel : Int → Option Nat) (tid : Int) (mt : String)
    (audio_data : List (Nat × Audio)) (s : String)
    (h1 : ch.id ∈ st.allowed_voice_channels)
    (h2 : st.connections.lookup guildId = none)
    (h3 : ch.members.any (fun m => !m.bot) = true)
    (h4 : ggc st.SUMMARY_CHANNEL_ID = none)
    (hs : summarize (assembleTranscript (transcribeAll transcribe audio_data)) =
      .ok s) :
    (on_voice_state_update (.ok vc) stop_rec guildId me ggc none (some ch)
        st).1.connections.lookup guildId = some ⟨vc, none⟩ ∧
    (on_voice_state_update (.ok vc) stop_rec guildId me ggc none (some ch)
        st).2.1 = [VoiceAct.startRecording vc none] ∧
    (once_done transcribe summarize get_channel tid mt audio_data none).failed
      = true ∧
    ∀ d m, Call.send d m ∉
      (once_done transcribe summarize get_channel tid mt audio_data none).calls := by
  refine ⟨?_, ?_, ?_, ?_⟩
  · simp [on_voice_state_update, on_voice_state_update_try, h1, h2, h3, h4,
      lookup_dictInsert]
  · simp [on_voice_state_update, on_voice_state_update_try, h1, h2, h3, h4]
  · simp only [once_done]
    rw [hs]
  · intro d m
    simp only [once_done]
    rw [hs]
    simp

/-- C1 counterexample: with a session already active for guild 1, a manual
start attempt whose voice connect succeeds does not fail with any
AlreadyRecording error — it reports success and replaces the original
session in the registry. -/
theorem C1_counterexample :
    stBusy.connections.lookup 1 = some ⟨7, some 50⟩ ∧
    (record (.ok 8) (some chHuman) 60 1 stBusy).2.2 =
      "🔴 Listening to this conversation." ∧
    (record (.ok 8) (some chHuman) 60 1 stBusy).1.connections.lookup 1 =
      some ⟨8, some 60⟩ ∧
    (⟨8, some 60⟩ : Session) ≠ ⟨7, some 50⟩ :=
  ⟨rfl, rfl, rfl, by decide⟩

/-- C1 (amended): the registry is a dict keyed by guild id, so it holds at
most one session per guild at any time; while a session is active, an
auto-start attempt for that guild is silently skipped, leaving the original
session unchanged; the manual `record` command performs no AlreadyRecording
check — when its connect fails the registry is unchanged and a generic
connect-failure message is reported, and when its connect succeeds it
replaces the original session and reports success (the per-guild uniqueness
is preserved, but no AlreadyRecording failure exists in the code). -/
theorem C1_amended_registry_discipline
    (stop_rec : Nat → Except String Unit) (guildId : Nat) (me : Member)
    (ggc : Int → Option Nat) (ch : VoiceChannel) (ctx_channel vc : Nat)
    (e : String) (st : BotState) (s : Session)
    (h1 : st.connections.lookup guildId = some s)
    (h2 : NodupKeys st.connections) :
    (∀ connect, on_voice_state_update connect stop_rec guildId me ggc none
        (some ch) st = (st, [], none)) ∧
    record (.error e) (some ch) ctx_channel guildId st =
      (st, [], "⚠️ Failed to connect to the voice channel.") ∧
    (record (.ok vc) (some ch) ctx_channel guildId st).2.2 =
      "🔴 Listening to this conversation." ∧
    (record (.ok vc) (some ch) ctx_channel guildId st).1.connections.lookup guildId
      = some ⟨vc, some ctx_channel⟩ ∧
    NodupKeys (record (.ok vc) (some ch) ctx_channel guildId st).1.connections := by
  refine ⟨?_, rfl, rfl, ?_, ?_⟩
  · intro connect
    by_cases hmem : ch.id ∈ st.allowed_voice_channels
    · simp [on_voice_state_update, on_voice_state_update_try, hmem, h1]
    · simp [on_voice_state_update, on_voice_state_update_try, hmem]
  · simpa [record] using
      lookup_dictInsert st.connections guildId ⟨vc, some ctx_channel⟩
  · simpa [record] using
      nodupKeys_dictInsert st.connections guildId ⟨vc, some ctx_channel⟩ h2

theorem C1_witness :
    on_voice_state_update (.ok 8) stopOk 1 meBot someChannel none
      (some chHuman) stBusy = (stBusy, [], none) ∧
    record (.error ("x")) (some chHuman) 60 1 stBusy =
      (stBusy, [], "⚠️ Failed to connect to the voice channel.") ∧
    (record (.ok 8) (some chHuman) 60 1 stBusy).1.connections.lookup 1 =
      some ⟨8, some 60⟩ ∧
    NodupKeys (record (.ok 8) (some chHuman) 60 1 stBusy).1.connections :=
  ⟨(C1_amended_registry_discipline stopOk 1 meBot someChannel chHuman 60 8
      ("x") stBusy ⟨7, some 50⟩ rfl (by unfold NodupKeys; decide)).1 (.ok 8),
   (C1_amended_registry_discipline stopOk 1 meBot someChannel chHuman 60 8
      ("x") stBusy ⟨7, some 50⟩ rfl (by unfold NodupKeys; decide)).2.1,
   (C1_amended_registry_discipline stopOk 1 meBot someChannel chHuman 60 8
      ("x") stBusy ⟨7, some 50⟩ rfl (by unfold NodupKeys; decide)).2.2.2.1,
   (C1_amended_registry_discipline stopOk 1 meBot someChannel chHuman 60 8
      ("x") stBusy ⟨7, some 50⟩ rfl (by unfold NodupKeys; decide)).2.2.2.2⟩

theorem C2_witness :
    (once_done transcribeOk summarizeFail someChannel 88 ("t") [(1, 0)]
      (some 77)).failed = true ∧
    Call.send 77 ("m") ∉
      (once_done transcribeOk summarizeFail someChannel 88 ("t") [(1, 0)]
        (some 77)).calls :=
  ⟨(C2_summarize_failure_aborts_posts transcribeOk summarizeFail someChannel
      88 ("t") [(1, 0)] (some 77) ("boom") rfl).1,
   (C2_summarize_failure_aborts_posts transcribeOk summarizeFail someChannel
      88 ("t") [(1, 0)] (some 77) ("boom") rfl).2 77 ("m")⟩

theorem C4_witness :
    on_voice_state_update (.ok 8) stopOk 1 meBot someChannel none
      (some chHuman) stIdle =
      ({stIdle with connections :=
          dictInsert stIdle.connections 1 ⟨8, someChannel stIdle.SUMMARY_CHANNEL_ID⟩},
       [VoiceAct.startRecording 8 (someChannel stIdle.SUMMARY_CHANNEL_ID)],
       none) ∧
    on_voice_state_update (.ok 8) stopOk 1 meBot someChannel none
      (some chBotsOnly) stIdle = (stIdle, [], none) :=
  ⟨(C4_join_auto_start_iff 8 stopOk 1 meBot someChannel chHuman stIdle).1
      ⟨by decide, rfl, rfl⟩,
   (C4_join_auto_start_iff 8 stopOk 1 meBot someChannel chBotsOnly stIdle).2
      (by decide)⟩

theorem C5_witness :
    on_voice_state_update (.ok 8) stopOk 1 meBot someChannel (some chBotsOnly)
      none stBusy =
      ({stBusy with connections := dictErase stBusy.connections 1},
       [VoiceAct.stopRecording 7], none) ∧
    ({stBusy with connections := dictErase stBusy.connections 1} :
      BotState).connections.lookup 1 = none ∧
    on_voice_state_update (.ok 8) stopOk 1 meBot someChannel (some chBotsOnly)
      none {stBusy with connections := dictErase stBusy.connections 1} =
      ({stBusy with connections := dictErase stBusy.connections 1}, [], none) :=
  C5_auto_stop_exactly_once (.ok 8) stopOk 1 meBot someChannel chBotsOnly none
    stBusy ⟨7, some 50⟩ (by decide) rfl rfl rfl

theorem C6_witness :
    (once_done transcribeOk summarizeOk noChannel 88 ("t") [(1, 0)]
      (some 77)).failed = false ∧
    (once_done transcribeOk summarizeOk noChannel 88 ("t") [(1, 0)]
      (some 77)).transcript_channel_missing_logged = true ∧
    Call.send 77 (summaryMessage ("t") (recordedUsers [(1, 0)]) ("the summary"))
      ∈ (once_done transcribeOk summarizeOk noChannel 88 ("t") [(1, 0)]
          (some 77)).calls :=
  ⟨(C6_unresolved_transcript_channel_degrades transcribeOk summarizeOk
      noChannel 88 ("t") [(1, 0)] 77 ("the summary") rfl rfl).1,
   (C6_unresolved_transcript_channel_degrades transcribeOk summarizeOk
      noChannel 88 ("t") [(1, 0)] 77 ("the summary") rfl rfl).2.1,
   (C6_unresolved_transcript_channel_degrades transcribeOk summarizeOk
      noChannel 88 ("t") [(1, 0)] 77 ("the summary") rfl rfl).2.2.1⟩

theorem C7_witness :
    set_auto_record_channels pyIntFix [("12"), ("abc")] stIdle =
      (stIdle,
       [CmdAct.reply ("Invalid channel ID provided in one or more inputs!")]) ∧
    set_auto_record_channels pyIntFix [("12")] stIdle =
      ({stIdle with
          allowed_voice_channels := [12],
          config := {stIdle.config with allowed_voice_channels := [12]},
          file := {stIdle.config with allowed_voice_channels := [12]}},
       [CmdAct.writeConfigFile
          {stIdle.config with allowed_voice_channels := [12]},
        CmdAct.reply ("Auto record channels updated to: " ++
          String.intercalate (", ") (([12] : List Int).map toString))]) :=
  ⟨(C7_set_auto_channels_all_or_nothing pyIntFix [("12"), ("abc")] stIdle).1
      (by rfl),
   (C7_set_auto_channels_all_or_nothing pyIntFix [("12")] stIdle).2 [12]
      (by rfl)⟩

theorem C9_witness :
    (set_summary_channel pyIntFix ("42") stIdle).1.file =
      (set_summary_channel pyIntFix ("42") stIdle).1.config ∧
    (set_summary_channel pyIntFix ("42") stIdle).2 =
      [CmdAct.writeConfigFile (set_summary_channel pyIntFix ("42") stIdle).1.config,
       CmdAct.reply ("Summary channel set to: " ++ toString (42 : Int))] ∧
    configInSync (set_summary_channel pyIntFix ("42") stIdle).1 ∧
    (set_transcript_channel pyIntFix ("42") stIdle).1.file =
      (set_transcript_channel pyIntFix ("42") stIdle).1.config ∧
    (set_auto_record_channels pyIntFix [("12")] stIdle).1.file =
      (set_auto_record_channels pyIntFix [("12")] stIdle).1.config :=
  ⟨((C9_setters_write_through pyIntFix ("42") [("12")] stIdle).1 42
      (by rfl)).1,
   ((C9_setters_write_through pyIntFix ("42") [("12")] stIdle).1 42
      (by rfl)).2.1,
   ((C9_setters_write_through pyIntFix ("42") [("12")] stIdle).1 42
      (by rfl)).2.2 ⟨rfl, rfl, rfl⟩,
   ((C9_setters_write_through pyIntFix ("42") [("12")] stIdle).2.1 42
      (by rfl)).1,
   ((C9_setters_write_through pyIntFix ("42") [("12")] stIdle).2.2 [12]
      (by rfl)).1⟩

theorem C10_witness :
    (on_voice_state_update (.ok 8) stopOk 1 meBot noChannel none
      (some chHuman) stIdle).1.connections.lookup 1 = some ⟨8, none⟩ ∧
    (on_voice_state_update (.ok 8) stopOk 1 meBot noChannel none
      (some chHuman) stIdle).2.1 = [VoiceAct.startRecording 8 none] ∧
    (once_done transcribeOk summarizeOk someChannel 88 ("t") [(1, 0)]
      none).failed = true ∧
    Call.send 77 ("m") ∉
      (once_done transcribeOk summarizeOk someChannel 88 ("t") [(1, 0)]
        none).calls :=
  ⟨(C10_unresolved_destination_not_validated_at_start 8 stopOk 1 meBot
      noChannel chHuman stIdle transcribeOk summarizeOk someChannel 88 ("t")
      [(1, 0)] ("the summary") (by decide) rfl rfl rfl rfl).1,
   (C10_unresolved_destination_not_validated_at_start 8 stopOk 1 meBot
      noChannel chHuman stIdle transcribeOk summarizeOk someChannel 88 ("t")
      [(1, 0)] ("the summary") (by decide) rfl rfl rfl rfl).2.1,
   (C10_unresolved_destination_not_validated_at_start 8 stopOk 1 meBot
      noChannel chHuman stIdle transcribeOk summarizeOk someChannel 88 ("t")
      [(1, 0)] ("the summary") (by decide) rfl rfl rfl rfl).2.2.1,
   (C10_unresolved_destination_not_validated_at_start 8 stopOk 1 meBot
      noChannel chHuman stIdle transcribeOk summarizeOk someChannel 88 ("t")
      [(1, 0)] ("the summary") (by decide) rfl rfl rfl rfl).2.2.2 77 ("m")⟩
